import Mathlib

/-!
Verification of the stress-monitoring dashboard's core logic.

Shallow embedding of the repository's Python sources:
* `src/stress_predictor.py` — `StressPredictorEngine._simulate_prediction`
  (the simulation-mode estimator used when no model files are present);
* `src/data_simulator.py` — `WorkerDataSimulator.generate_next_hr`;
* `src/dashboard.py` — `parse_timestamp`, `process_uploaded_csv`,
  `update_worker_data`;
* `src/config.py` — the configuration constants those functions read.

Conventions: Python floats are modelled as `ℚ`; Python ints as `ℤ`/`ℕ`.
Every random draw the code makes (`random.random()`, `random.randint(a,b)`,
`np.random.uniform(0,b)`, `np.random.normal(0,σ)`) is passed in explicitly:
`random.random()` and `np.random.normal` as an arbitrary rational,
`np.random.uniform(0,b)` as `b * u` for a parameter `u` (with `0 ≤ u ≤ 1`
assumed where a claim needs it), `randint` as an arbitrary integer draw.
Python's `int()` (truncation toward zero) is `pyInt`.  Timestamp-format
parsing (a pandas library call) is abstracted as parameters of type
`String → Option ℚ`; the control flow around it is embedded faithfully.
-/

/-- Python's `int()` on a float: truncation toward zero. -/
def pyInt (q : ℚ) : ℤ := if 0 ≤ q then ⌊q⌋ else ⌈q⌉

/-! ### Configuration (`src/config.py`) -/

/-- `MODEL_CONFIG['default_threshold']`. -/
def default_threshold : ℚ := 0.35

/-- `SIMULATION_CONFIG['stress_probability']`. -/
def stress_probability_config : ℚ := 0.15

/-- `DASHBOARD_CONFIG['max_data_points']`. -/
def max_data_points : ℕ := 100

/-! ### Stress estimator (`src/stress_predictor.py`, `_simulate_prediction`) -/

/-- The result dictionary built by `_simulate_prediction`. -/
structure PredResult where
  hr : ℚ
  stress_probability : ℚ
  is_stress : Bool
  threshold : ℚ
  status : String
  deriving DecidableEq

/-- The piecewise base probability of `_simulate_prediction` (lines 109-126).
`u` is the uniform draw scaled to `[0,1]`: `np.random.uniform(0, b)` is
written `b * u`. -/
def base_prob (hr u : ℚ) : ℚ :=
  if hr < 60 then 0.6 + (60 - hr) * 0.01
  else if hr ≤ 70 then 0.05 + 0.15 * u
  else if hr ≤ 90 then 0.1 + 0.25 * u
  else if hr ≤ 110 then 0.3 + (hr - 90) * 0.015 + 0.3 * u
  else if hr ≤ 130 then 0.5 + (hr - 110) * 0.02 + 0.2 * u
  else 0.7 + min 0.25 ((hr - 130) * 0.01) + 0.15 * u

/-- The result record of `_simulate_prediction`: threshold defaulting,
base probability, Gaussian noise `g`, clamp to `[0,1]`, classification. -/
def simulate_prediction_result (hr : ℚ) (threshold? : Option ℚ) (u g : ℚ) :
    PredResult :=
  let threshold := threshold?.getD default_threshold
  let stress_prob := base_prob hr u + g
  let stress_prob := max 0 (min 1 stress_prob)
  let is_stress := decide (threshold ≤ stress_prob)
  { hr := hr
    stress_probability := stress_prob
    is_stress := is_stress
    threshold := threshold
    status := if is_stress then "stress" else "normal" }

/-- `_simulate_prediction` returns the pair `(dict, None)`; the `except`
branch would return `(None, message)`. No operation in the body can raise,
so the embedded body is the `try` branch. -/
def simulate_prediction (hr : ℚ) (threshold? : Option ℚ) (u g : ℚ) :
    Option PredResult × Option String :=
  (some (simulate_prediction_result hr threshold? u g), none)

/-! ### Heart-rate simulator (`src/data_simulator.py`, `generate_next_hr`) -/

/-- `self.current_state ∈ {'normal', 'stress'}`. -/
inductive Regime where
  | normal
  | stress
  deriving DecidableEq

/-- Mutable per-worker simulator state (`WorkerDataSimulator.__init__`). -/
structure SimState where
  base_hr : ℤ
  current_state : Regime
  state_duration : ℤ
  state_start_time : ℚ
  current_hr : ℚ
  is_stressed : Bool
  deriving DecidableEq

/-- The random draws one call to `generate_next_hr` can make. -/
structure TickRng where
  /-- `random.random()` for the normal→stress trigger. -/
  trigger : ℚ
  /-- `random.randint(*SIMULATION_CONFIG['stress_duration'])`. -/
  duration : ℤ
  /-- `random.randint(-5, 10)` added to `base_hr` in the normal regime. -/
  offset : ℤ
  /-- `random.randint(*SIMULATION_CONFIG['hr_stress_range'])`. -/
  stressTarget : ℤ
  /-- `random.randint(-noise_level, noise_level)`. -/
  noise : ℤ
  deriving DecidableEq

/-- The regime-transition block of `generate_next_hr` (lines 32-44). -/
def stepRegime (s : SimState) (now : ℚ) (rng : TickRng) : SimState :=
  match s.current_state with
  | Regime.normal =>
      if rng.trigger < stress_probability_config then
        { s with current_state := Regime.stress
                 state_start_time := now
                 state_duration := rng.duration }
      else s
  | Regime.stress =>
      if (s.state_duration : ℚ) < now - s.state_start_time then
        { s with current_state := Regime.normal
                 state_start_time := now }
      else s

/-- The target heart rate drawn after the transition block (lines 46-58):
regime-dependent target plus the symmetric noise draw. -/
def tickTarget (s : SimState) (rng : TickRng) : ℤ :=
  (match s.current_state with
   | Regime.normal => s.base_hr + rng.offset
   | Regime.stress => rng.stressTarget) + rng.noise

/-- Rate limiting (lines 60-65): move 30% of the way when the gap
exceeds 10, else snap to the target. -/
def rateLimited (current : ℚ) (target : ℤ) : ℚ :=
  let diff : ℚ := (target : ℚ) - current
  if 10 < |diff| then current + diff * 0.3 else (target : ℚ)

/-- The final clamp (line 68): `max(50, min(150, int(hr)))`. -/
def clampHr (q : ℚ) : ℤ := max 50 (min 150 (pyInt q))

/-- One call to `generate_next_hr`: transition block, regime-dependent
target with noise, rate limiting, clamp. -/
def generate_next_hr (s : SimState) (now : ℚ) (rng : TickRng) : SimState :=
  let s1 := stepRegime s now rng
  let stressed := match s1.current_state with
    | Regime.normal => false
    | Regime.stress => true
  { s1 with
    is_stressed := stressed
    current_hr := ((clampHr (rateLimited s1.current_hr (tickTarget s1 rng))) : ℚ) }

/-- A run of successive ticks, each with its wall-clock time and draws. -/
def runTicks (s : SimState) : List (ℚ × TickRng) → SimState
  | [] => s
  | (now, rng) :: rest => runTicks (generate_next_hr s now rng) rest

/-! ### Dashboard CSV path and buffer (`src/dashboard.py`) -/

/-- One row of an uploaded CSV after the required-columns check:
the raw `timestamp` cell and the numeric `HR` cell. -/
structure CsvRow where
  timestamp : String
  hr : ℚ

/-- A row after timestamp parsing. -/
structure ParsedRow where
  timestamp : ℚ
  hr : ℚ

/-- `parse_timestamp` (dashboard lines 45-57): try each configured format
in order, then the permissive pandas fallback, else `None`. `fmts` are the
format-specific parsers from `CSV_CONFIG['timestamp_formats']`, `fb` the
fallback `pd.to_datetime`. -/
def parse_timestamp (fmts : List (String → Option ℚ)) (fb : String → Option ℚ)
    (s : String) : Option ℚ :=
  match fmts.findSome? (fun f => f s) with
  | some t => some t
  | none => fb s

/-- `process_uploaded_csv` (dashboard lines 59-88) after the
required-columns check: parse timestamps and drop failures, keep HR in
`[30, 200]`, sort ascending by timestamp. -/
def process_uploaded_csv (fmts : List (String → Option ℚ))
    (fb : String → Option ℚ) (rows : List CsvRow) : List ParsedRow :=
  let parsed := rows.filterMap
    (fun r => (parse_timestamp fmts fb r.timestamp).map
      (fun t => ({ timestamp := t, hr := r.hr } : ParsedRow)))
  let valid := parsed.filter (fun r => decide (30 ≤ r.hr ∧ r.hr ≤ 200))
  valid.mergeSort (fun a b => decide (a.timestamp ≤ b.timestamp))

/-- One buffered sample (dashboard lines 95-100). -/
structure Sample where
  timestamp : ℚ
  hr : ℚ
  stress_probability : ℚ
  is_stress : Bool
  deriving DecidableEq

/-- One worker's slice of the session state touched by
`update_worker_data`: the bounded sample buffer and the alert flag. -/
structure WorkerSessionState where
  data : List Sample
  alert : Bool
  deriving DecidableEq

/-- `update_worker_data` (dashboard lines 90-103): evict the oldest sample
when the buffer has reached `max_data_points`, append the new sample, set
the alert flag. -/
def update_worker_data (st : WorkerSessionState) (sample : Sample) :
    WorkerSessionState :=
  let d := if max_data_points ≤ st.data.length then st.data.drop 1 else st.data
  { data := d ++ [sample], alert := sample.is_stress }

/-! ### Estimator claims -/

/-- C1: for every hr in [50,150], threshold in [0,1] (and uniform draw in
[0,1], arbitrary Gaussian draw), the simulation-mode estimator returns a
stress probability in [0,1] — the base-plus-noise value clamped to [0,1] —
and an is_stress flag equal to (probability ≥ threshold); with no threshold
supplied it uses the default 0.35. -/
theorem C1_estimator_range_and_flag (hr thr u g : ℚ)
    (hhr1 : 50 ≤ hr) (hhr2 : hr ≤ 150) (ht1 : 0 ≤ thr) (ht2 : thr ≤ 1)
    (hu1 : 0 ≤ u) (hu2 : u ≤ 1) :
    (0 ≤ (simulate_prediction_result hr (some thr) u g).stress_probability ∧
      (simulate_prediction_result hr (some thr) u g).stress_probability ≤ 1) ∧
    (simulate_prediction_result hr (some thr) u g).stress_probability =
      max 0 (min 1 (base_prob hr u + g)) ∧
    ((simulate_prediction_result hr (some thr) u g).is_stress = true ↔
      thr ≤ (simulate_prediction_result hr (some thr) u g).stress_probability) ∧
    (simulate_prediction_result hr none u g).threshold = default_threshold := by
  refine ⟨⟨le_max_left _ _, max_le (by norm_num) (min_le_left _ _)⟩, rfl, ?_, rfl⟩
  simp [simulate_prediction_result]

/-- C1 witness at hr = 80, threshold = 1, u = 0, g = 0. -/
theorem C1_estimator_range_and_flag_witness :
    ((50 : ℚ) ≤ 80 ∧ (80 : ℚ) ≤ 150 ∧ (0 : ℚ) ≤ 1 ∧ (1 : ℚ) ≤ 1 ∧
      (0 : ℚ) ≤ 0 ∧ (0 : ℚ) ≤ 1) ∧
    ((0 ≤ (simulate_prediction_result 80 (some 1) 0 0).stress_probability ∧
      (simulate_prediction_result 80 (some 1) 0 0).stress_probability ≤ 1) ∧
    (simulate_prediction_result 80 (some 1) 0 0).stress_probability =
      max 0 (min 1 (base_prob 80 0 + 0)) ∧
    ((simulate_prediction_result 80 (some 1) 0 0).is_stress = true ↔
      1 ≤ (simulate_prediction_result 80 (some 1) 0 0).stress_probability) ∧
    (simulate_prediction_result 80 none 0 0).threshold = default_threshold) :=
  ⟨by norm_num,
   C1_estimator_range_and_flag 80 1 0 0 (by norm_num) (by norm_num)
     (by norm_num) (by norm_num) (by norm_num) (by norm_num)⟩

/-- C3: the estimator's base probability (before the Gaussian term) follows
the piecewise table by HR band, the uniform jitter U(0,b) written b·u with
u in [0,1]; in particular at hr = 59 the base term is at least 0.6. -/
theorem C3_base_prob_table (hr : ℤ) (u : ℚ) (hu1 : 0 ≤ u) (hu2 : u ≤ 1) :
    ((hr : ℚ) < 60 → base_prob hr u = 0.6 + (60 - (hr : ℚ)) * 0.01) ∧
    (60 ≤ (hr : ℚ) → (hr : ℚ) ≤ 70 → base_prob hr u = 0.05 + 0.15 * u) ∧
    (70 < (hr : ℚ) → (hr : ℚ) ≤ 90 → base_prob hr u = 0.1 + 0.25 * u) ∧
    (90 < (hr : ℚ) → (hr : ℚ) ≤ 110 →
      base_prob hr u = 0.3 + ((hr : ℚ) - 90) * 0.015 + 0.3 * u) ∧
    (110 < (hr : ℚ) → (hr : ℚ) ≤ 130 →
      base_prob hr u = 0.5 + ((hr : ℚ) - 110) * 0.02 + 0.2 * u) ∧
    (130 < (hr : ℚ) →
      base_prob hr u = 0.7 + min 0.25 (((hr : ℚ) - 130) * 0.01) + 0.15 * u) ∧
    (hr = 59 → 0.6 ≤ base_prob hr u) := by
  refine ⟨?_, ?_, ?_, ?_, ?_, ?_, ?_⟩
  · intro h1
    rw [base_prob, if_pos h1]
  · intro h1 h2
    rw [base_prob, if_neg (by linarith), if_pos h2]
  · intro h1 h2
    rw [base_prob, if_neg (by linarith), if_neg (by linarith), if_pos h2]
  · intro h1 h2
    rw [base_prob, if_neg (by linarith), if_neg (by linarith),
      if_neg (by linarith), if_pos h2]
  · intro h1 h2
    rw [base_prob, if_neg (by linarith), if_neg (by linarith),
      if_neg (by linarith), if_neg (by linarith), if_pos h2]
  · intro h1
    rw [base_prob, if_neg (by linarith), if_neg (by linarith),
      if_neg (by linarith), if_neg (by linarith), if_neg (by linarith)]
  · rintro rfl
    norm_num [base_prob]

/-- C3 witness at hr = 59, u = 0: the low-HR band applies and the base
term is 0.61 ≥ 0.6. -/
theorem C3_base_prob_table_witness :
    ((0 : ℚ) ≤ 0 ∧ (0 : ℚ) ≤ 1) ∧
    (((59 : ℤ) : ℚ) < 60 → base_prob ((59 : ℤ) : ℚ) 0 =
      0.6 + (60 - ((59 : ℤ) : ℚ)) * 0.01) ∧
    ((59 : ℤ) = 59 → 0.6 ≤ base_prob ((59 : ℤ) : ℚ) 0) :=
  ⟨by norm_num, (C3_base_prob_table 59 0 (by norm_num) (by norm_num)).1,
   (C3_base_prob_table 59 0 (by norm_num) (by norm_num)).2.2.2.2.2.2⟩

/-- C7: on any numeric input the simulation-mode estimator returns a
result with no error message — the (None, error) branch is unreachable —
and the simulator's tick function always produces a successor state. -/
theorem C7_totality :
    (∀ (hr : ℚ) (threshold? : Option ℚ) (u g : ℚ),
      (simulate_prediction hr threshold? u g).1 =
        some (simulate_prediction_result hr threshold? u g) ∧
      (simulate_prediction hr threshold? u g).2 = none) ∧
    (∀ (s : SimState) (now : ℚ) (rng : TickRng),
      ∃ s2, generate_next_hr s now rng = s2) :=
  ⟨fun _ _ _ _ => ⟨rfl, rfl⟩, fun _ _ _ => ⟨_, rfl⟩⟩

/-- C10: every result dictionary of the simulation-mode estimator is
internally consistent: status is "stress" exactly when is_stress is true,
"normal" exactly when it is false, and the echoed threshold is the
caller's value, or 0.35 when the caller passed none. -/
theorem C10_result_consistency (hr u g : ℚ) (threshold? : Option ℚ) :
    ((simulate_prediction_result hr threshold? u g).status = "stress" ↔
      (simulate_prediction_result hr threshold? u g).is_stress = true) ∧
    ((simulate_prediction_result hr threshold? u g).status = "normal" ↔
      (simulate_prediction_result hr threshold? u g).is_stress = false) ∧
    (simulate_prediction_result hr threshold? u g).threshold =
      threshold?.getD default_threshold := by
  unfold simulate_prediction_result
  by_cases h :
      threshold?.getD default_threshold ≤ max 0 (min 1 (base_prob hr u + g)) <;>
    simp [h]

/-! ### Simulator helper lemmas -/

/-- The transition block never touches `current_hr`. -/
theorem stepRegime_current_hr (s : SimState) (now : ℚ) (rng : TickRng) :
    (stepRegime s now rng).current_hr = s.current_hr := by
  obtain ⟨b, cs, d, st, ch, ib⟩ := s
  unfold stepRegime
  cases cs <;> dsimp only <;> split <;> rfl

/-- The transition block never touches `base_hr`. -/
theorem stepRegime_base_hr (s : SimState) (now : ℚ) (rng : TickRng) :
    (stepRegime s now rng).base_hr = s.base_hr := by
  obtain ⟨b, cs, d, st, ch, ib⟩ := s
  unfold stepRegime
  cases cs <;> dsimp only <;> split <;> rfl

/-- After the transition block, a tick only rewrites `is_stressed` and
`current_hr`; the regime bookkeeping fields pass through unchanged. -/
theorem generate_next_hr_fields (s : SimState) (now : ℚ) (rng : TickRng) :
    (generate_next_hr s now rng).current_state =
      (stepRegime s now rng).current_state ∧
    (generate_next_hr s now rng).state_start_time =
      (stepRegime s now rng).state_start_time ∧
    (generate_next_hr s now rng).state_duration =
      (stepRegime s now rng).state_duration ∧
    (generate_next_hr s now rng).base_hr = (stepRegime s now rng).base_hr :=
  ⟨rfl, rfl, rfl, rfl⟩

/-- In the stress regime, while the elapsed time has not exceeded the
sampled duration the transition block is the identity. -/
theorem stepRegime_stress_stay (s : SimState) (now : ℚ) (rng : TickRng)
    (hs : s.current_state = Regime.stress)
    (h : now - s.state_start_time ≤ (s.state_duration : ℚ)) :
    stepRegime s now rng = s := by
  unfold stepRegime
  rw [hs]
  exact if_neg (not_lt.mpr h)

/-- In the stress regime, once the elapsed time exceeds the sampled
duration the transition block reverts to normal. -/
theorem stepRegime_stress_revert (s : SimState) (now : ℚ) (rng : TickRng)
    (hs : s.current_state = Regime.stress)
    (h : (s.state_duration : ℚ) < now - s.state_start_time) :
    (stepRegime s now rng).current_state = Regime.normal := by
  unfold stepRegime
  rw [hs, if_pos h]

/-! ### Simulator claims -/

/-- C2: after any single tick the new `current_hr` is an integer in
[50,150], for every state whose `current_hr` is an integer in [50,150]
(indeed for every state at all), whatever the regime and the draws. -/
theorem C2_hr_range_invariant (s : SimState) (now : ℚ) (rng : TickRng)
    (h : ∃ m : ℤ, s.current_hr = (m : ℚ) ∧ 50 ≤ m ∧ m ≤ 150) :
    ∃ n : ℤ, (generate_next_hr s now rng).current_hr = (n : ℚ) ∧
      50 ≤ n ∧ n ≤ 150 :=
  ⟨clampHr (rateLimited (stepRegime s now rng).current_hr
      (tickTarget (stepRegime s now rng) rng)),
   rfl, le_max_left _ _, max_le (by norm_num) (min_le_left _ _)⟩

/-- C2 witness: a normal-regime state at 80 bpm, one tick. -/
theorem C2_hr_range_invariant_witness :
    (∃ m : ℤ, (⟨80, Regime.normal, 0, 0, 80, false⟩ : SimState).current_hr =
      (m : ℚ) ∧ 50 ≤ m ∧ m ≤ 150) ∧
    ∃ n : ℤ, (generate_next_hr ⟨80, Regime.normal, 0, 0, 80, false⟩ 0
        ⟨1, 5, 0, 90, 0⟩).current_hr = (n : ℚ) ∧ 50 ≤ n ∧ n ≤ 150 :=
  ⟨⟨80, by norm_num, by norm_num, by norm_num⟩,
   C2_hr_range_invariant ⟨80, Regime.normal, 0, 0, 80, false⟩ 0 ⟨1, 5, 0, 90, 0⟩
     ⟨80, by norm_num, by norm_num, by norm_num⟩⟩

/-- C8: a tick never changes `base_hr`, and `state_duration` is reassigned
(to the fresh duration draw) exactly when a normal→stress transition fires
on that tick; on every other tick it is unchanged. -/
theorem C8_frame_conditions (s : SimState) (now : ℚ) (rng : TickRng) :
    (generate_next_hr s now rng).base_hr = s.base_hr ∧
    (generate_next_hr s now rng).state_duration =
      (if s.current_state = Regime.normal ∧
          rng.trigger < stress_probability_config
        then rng.duration else s.state_duration) := by
  refine ⟨(generate_next_hr_fields s now rng).2.2.2.trans
    (stepRegime_base_hr s now rng), ?_⟩
  rw [(generate_next_hr_fields s now rng).2.2.1]
  obtain ⟨b, cs, d, st, ch, ib⟩ := s
  unfold stepRegime
  cases cs <;> dsimp only
  · by_cases htr : rng.trigger < stress_probability_config <;> simp [htr]
  · split <;> simp

/-- C5: from a stress state, every tick whose elapsed time since the
transition is at most the sampled duration leaves the regime in stress
(with the transition time and duration untouched), and the first tick
whose elapsed time exceeds the duration reverts the regime to normal. -/
theorem C5_stress_regime_persistence (s : SimState)
    (ticks : List (ℚ × TickRng)) (now2 : ℚ) (rng2 : TickRng)
    (hs : s.current_state = Regime.stress)
    (hall : ∀ p ∈ ticks, p.1 - s.state_start_time ≤ (s.state_duration : ℚ))
    (hlate : (s.state_duration : ℚ) < now2 - s.state_start_time) :
    (runTicks s ticks).current_state = Regime.stress ∧
    (runTicks s ticks).state_start_time = s.state_start_time ∧
    (runTicks s ticks).state_duration = s.state_duration ∧
    (generate_next_hr (runTicks s ticks) now2 rng2).current_state =
      Regime.normal := by
  induction ticks generalizing s with
  | nil =>
    refine ⟨hs, rfl, rfl, ?_⟩
    exact (generate_next_hr_fields s now2 rng2).1.trans
      (stepRegime_stress_revert s now2 rng2 hs hlate)
  | cons p rest ih =>
    obtain ⟨now1, rng1⟩ := p
    have hstay : stepRegime s now1 rng1 = s :=
      stepRegime_stress_stay s now1 rng1 hs
        (hall (now1, rng1) (List.mem_cons_self _ _))
    have hcs : (generate_next_hr s now1 rng1).current_state = Regime.stress :=
      (generate_next_hr_fields s now1 rng1).1.trans (by rw [hstay, hs])
    have hst : (generate_next_hr s now1 rng1).state_start_time =
        s.state_start_time :=
      (generate_next_hr_fields s now1 rng1).2.1.trans (by rw [hstay])
    have hd : (generate_next_hr s now1 rng1).state_duration =
        s.state_duration :=
      (generate_next_hr_fields s now1 rng1).2.2.1.trans (by rw [hstay])
    have hrun : runTicks s ((now1, rng1) :: rest) =
        runTicks (generate_next_hr s now1 rng1) rest := rfl
    have hmain := ih (generate_next_hr s now1 rng1) hcs
      (fun p hp => by
        rw [hst, hd]
        exact hall p (List.mem_cons_of_mem _ hp))
      (by rw [hst, hd]; exact hlate)
    rw [hrun]
    exact ⟨hmain.1, hmain.2.1.trans hst, hmain.2.2.1.trans hd, hmain.2.2.2⟩

/-- C5 witness: stress state entered at time 0 with duration 5; ticks at
times 1 and 2 stay in stress, the tick at time 6 reverts to normal. -/
theorem C5_stress_regime_persistence_witness :
    ((⟨80, Regime.stress, 5, 0, 80, true⟩ : SimState).current_state =
      Regime.stress ∧
     (∀ p ∈ [((1 : ℚ), (⟨0, 5, 0, 100, 0⟩ : TickRng)),
             ((2 : ℚ), (⟨0, 5, 0, 100, 0⟩ : TickRng))],
       p.1 - (⟨80, Regime.stress, 5, 0, 80, true⟩ : SimState).state_start_time ≤
         ((⟨80, Regime.stress, 5, 0, 80, true⟩ : SimState).state_duration : ℚ)) ∧
     ((⟨80, Regime.stress, 5, 0, 80, true⟩ : SimState).state_duration : ℚ) <
       6 - (⟨80, Regime.stress, 5, 0, 80, true⟩ : SimState).state_start_time) ∧
    ((runTicks ⟨80, Regime.stress, 5, 0, 80, true⟩
        [(1, ⟨0, 5, 0, 100, 0⟩), (2, ⟨0, 5, 0, 100, 0⟩)]).current_state =
      Regime.stress ∧
     (runTicks ⟨80, Regime.stress, 5, 0, 80, true⟩
        [(1, ⟨0, 5, 0, 100, 0⟩), (2, ⟨0, 5, 0, 100, 0⟩)]).state_start_time =
      (⟨80, Regime.stress, 5, 0, 80, true⟩ : SimState).state_start_time ∧
     (runTicks ⟨80, Regime.stress, 5, 0, 80, true⟩
        [(1, ⟨0, 5, 0, 100, 0⟩), (2, ⟨0, 5, 0, 100, 0⟩)]).state_duration =
      (⟨80, Regime.stress, 5, 0, 80, true⟩ : SimState).state_duration ∧
     (generate_next_hr (runTicks ⟨80, Regime.stress, 5, 0, 80, true⟩
        [(1, ⟨0, 5, 0, 100, 0⟩), (2, ⟨0, 5, 0, 100, 0⟩)]) 6
        ⟨0, 5, 0, 100, 0⟩).current_state = Regime.normal) := by
  have hall : ∀ p ∈ [((1 : ℚ), (⟨0, 5, 0, 100, 0⟩ : TickRng)),
      ((2 : ℚ), (⟨0, 5, 0, 100, 0⟩ : TickRng))],
      p.1 - (⟨80, Regime.stress, 5, 0, 80, true⟩ : SimState).state_start_time ≤
        ((⟨80, Regime.stress, 5, 0, 80, true⟩ : SimState).state_duration : ℚ) := by
    simp only [List.mem_cons, List.not_mem_nil, or_false]
    rintro p (rfl | rfl) <;> norm_num
  exact ⟨⟨rfl, hall, by norm_num⟩,
    C5_stress_regime_persistence ⟨80, Regime.stress, 5, 0, 80, true⟩
      [(1, ⟨0, 5, 0, 100, 0⟩), (2, ⟨0, 5, 0, 100, 0⟩)] 6 ⟨0, 5, 0, 100, 0⟩
      rfl hall (by norm_num)⟩

/-- Python's `int()` is the identity on integer values. -/
theorem pyInt_intCast (n : ℤ) : pyInt ((n : ℚ)) = n := by
  unfold pyInt
  split <;> simp

/-- C4 counterexample: stress state at 80 bpm, stress-target draw 92, no
noise. diff = 12 > 10 and no clamping applies, yet the tick lands on
80 + int(3.6) = 83, while round(0.3 × 12) = 4 predicts 84. -/
theorem C4_rate_limiting_counterexample :
    tickTarget (stepRegime ⟨80, Regime.stress, 5, 0, 80, true⟩ 0
        ⟨0, 5, 0, 92, 0⟩) ⟨0, 5, 0, 92, 0⟩ = 92 ∧
    10 < |(92 : ℚ) - 80| ∧
    (50 : ℚ) ≤ 80 + ((round (((92 : ℚ) - 80) * 0.3) : ℤ) : ℚ) ∧
    (80 : ℚ) + ((round (((92 : ℚ) - 80) * 0.3) : ℤ) : ℚ) ≤ 150 ∧
    (generate_next_hr ⟨80, Regime.stress, 5, 0, 80, true⟩ 0
        ⟨0, 5, 0, 92, 0⟩).current_hr = 83 ∧
    (generate_next_hr ⟨80, Regime.stress, 5, 0, 80, true⟩ 0
        ⟨0, 5, 0, 92, 0⟩).current_hr ≠
      (80 : ℚ) + ((round (((92 : ℚ) - 80) * 0.3) : ℤ) : ℚ) := by
  have hround : (round (((92 : ℚ) - 80) * 0.3) : ℤ) = 4 := by
    norm_num [round_eq]
  have hpost : (generate_next_hr ⟨80, Regime.stress, 5, 0, 80, true⟩ 0
      ⟨0, 5, 0, 92, 0⟩).current_hr = 83 := by
    norm_num [generate_next_hr, stepRegime, tickTarget, rateLimited, clampHr,
      pyInt, abs_of_nonneg]
  refine ⟨?_, by norm_num, ?_, ?_, hpost, ?_⟩
  · norm_num [tickTarget, stepRegime]
  · rw [hround]; norm_num
  · rw [hround]; norm_num
  · rw [hpost, hround]; norm_num

/-- C4 (amended): when the gap diff = target − current exceeds 10 in
magnitude and no clamping at 50/150 applies, the post-tick hr is
current + ⌊0.3·diff⌋ — the `int()` truncation of current + 0.3·diff —
not current + round(0.3·diff); when the gap is at most 10 and the target
needs no clamping, the tick snaps exactly to the target. -/
theorem C4_rate_limiting_amended (s : SimState) (now : ℚ) (rng : TickRng)
    (c t : ℤ) (hc : s.current_hr = (c : ℚ))
    (ht : tickTarget (stepRegime s now rng) rng = t) :
    (10 < |(t : ℚ) - (c : ℚ)| →
      50 ≤ c + ⌊((t : ℚ) - (c : ℚ)) * 0.3⌋ →
      c + ⌊((t : ℚ) - (c : ℚ)) * 0.3⌋ ≤ 150 →
      (generate_next_hr s now rng).current_hr =
        ((c + ⌊((t : ℚ) - (c : ℚ)) * 0.3⌋ : ℤ) : ℚ)) ∧
    (|(t : ℚ) - (c : ℚ)| ≤ 10 → 50 ≤ t → t ≤ 150 →
      (generate_next_hr s now rng).current_hr = ((t : ℤ) : ℚ)) := by
  have hcur : (generate_next_hr s now rng).current_hr =
      ((clampHr (rateLimited (c : ℚ) t)) : ℚ) := by
    have hshape : (generate_next_hr s now rng).current_hr =
        ((clampHr (rateLimited (stepRegime s now rng).current_hr
          (tickTarget (stepRegime s now rng) rng))) : ℚ) := rfl
    rw [hshape, stepRegime_current_hr, hc, ht]
  constructor
  · intro hd hlo hhi
    have hfloor := Int.floor_le (((t : ℚ) - (c : ℚ)) * 0.3)
    have h50 : ((50 : ℤ) : ℚ) ≤ ((c + ⌊((t : ℚ) - (c : ℚ)) * 0.3⌋ : ℤ) : ℚ) := by
      exact_mod_cast hlo
    push_cast at h50
    have h0 : (0 : ℚ) ≤ (c : ℚ) + ((t : ℚ) - (c : ℚ)) * 0.3 := by linarith
    rw [hcur]
    simp only [rateLimited, clampHr, pyInt]
    rw [if_pos hd, if_pos h0, add_comm ((c : ℚ)) (((t : ℚ) - (c : ℚ)) * 0.3),
      Int.floor_add_int]
    have hmax : max 50 (min 150 (⌊((t : ℚ) - (c : ℚ)) * 0.3⌋ + c)) =
        c + ⌊((t : ℚ) - (c : ℚ)) * 0.3⌋ := by omega
    rw [hmax]
  · intro hd hlo hhi
    rw [hcur]
    simp only [rateLimited, clampHr, pyInt]
    rw [if_neg (not_lt.mpr hd)]
    have h0 : (0 : ℚ) ≤ ((t : ℤ) : ℚ) := by
      exact_mod_cast le_trans (by norm_num : (0 : ℤ) ≤ 50) hlo
    rw [if_pos h0, Int.floor_intCast]
    norm_cast
    omega

/-- C4 witness: stress state at 80 bpm, target draw 100: diff = 20 > 10,
the tick moves to 80 + ⌊6⌋ = 86, inside [50,150]. -/
theorem C4_rate_limiting_amended_witness :
    ((⟨80, Regime.stress, 5, 0, 80, true⟩ : SimState).current_hr =
      ((80 : ℤ) : ℚ) ∧
     tickTarget (stepRegime ⟨80, Regime.stress, 5, 0, 80, true⟩ 0
        ⟨0, 5, 0, 100, 0⟩) ⟨0, 5, 0, 100, 0⟩ = 100 ∧
     10 < |((100 : ℤ) : ℚ) - ((80 : ℤ) : ℚ)| ∧
     (50 : ℤ) ≤ 80 + ⌊(((100 : ℤ) : ℚ) - ((80 : ℤ) : ℚ)) * 0.3⌋ ∧
     (80 : ℤ) + ⌊(((100 : ℤ) : ℚ) - ((80 : ℤ) : ℚ)) * 0.3⌋ ≤ 150) ∧
    (generate_next_hr ⟨80, Regime.stress, 5, 0, 80, true⟩ 0
        ⟨0, 5, 0, 100, 0⟩).current_hr =
      ((80 + ⌊(((100 : ℤ) : ℚ) - ((80 : ℤ) : ℚ)) * 0.3⌋ : ℤ) : ℚ) :=
  ⟨⟨by norm_num, by norm_num [tickTarget, stepRegime], by norm_num,
    by norm_num, by norm_num⟩,
   (C4_rate_limiting_amended ⟨80, Regime.stress, 5, 0, 80, true⟩ 0
      ⟨0, 5, 0, 100, 0⟩ 80 100 (by norm_num)
      (by norm_num [tickTarget, stepRegime])).1
     (by norm_num) (by norm_num) (by norm_num)⟩

/-! ### Dashboard claims -/

/-- C9: when the per-worker buffer holds at most `max_data_points`
samples, appending through `update_worker_data` keeps it at most
`max_data_points` long; below capacity the buffer is unchanged with the
new sample appended last, and at capacity the oldest (front) sample is
evicted and the rest keep their order with the new sample last. -/
theorem C9_buffer_bounded (st : WorkerSessionState) (sample : Sample)
    (h : st.data.length ≤ max_data_points) :
    (update_worker_data st sample).data.length ≤ max_data_points ∧
    (st.data.length < max_data_points →
      (update_worker_data st sample).data = st.data ++ [sample]) ∧
    (st.data.length = max_data_points →
      (update_worker_data st sample).data = st.data.drop 1 ++ [sample]) := by
  simp only [max_data_points] at h ⊢
  refine ⟨?_, ?_, ?_⟩
  · by_cases hfull : (100 : ℕ) ≤ st.data.length
    · simp only [update_worker_data, max_data_points, if_pos hfull,
        List.length_append, List.length_drop, List.length_singleton]
      omega
    · simp only [update_worker_data, max_data_points, if_neg hfull,
        List.length_append, List.length_singleton]
      omega
  · intro hlt
    simp only [update_worker_data, max_data_points,
      if_neg (by omega : ¬ (100 : ℕ) ≤ st.data.length)]
  · intro he
    simp only [update_worker_data, max_data_points,
      if_pos (by omega : (100 : ℕ) ≤ st.data.length)]

/-- C9 witness: an empty buffer accepts a sample and stays within
capacity. -/
theorem C9_buffer_bounded_witness :
    ((⟨[], false⟩ : WorkerSessionState).data.length ≤ max_data_points) ∧
    ((update_worker_data ⟨[], false⟩ ⟨0, 80, 0, false⟩).data.length ≤
        max_data_points ∧
     ((⟨[], false⟩ : WorkerSessionState).data.length < max_data_points →
       (update_worker_data ⟨[], false⟩ ⟨0, 80, 0, false⟩).data =
         (⟨[], false⟩ : WorkerSessionState).data ++ [⟨0, 80, 0, false⟩]) ∧
     ((⟨[], false⟩ : WorkerSessionState).data.length = max_data_points →
       (update_worker_data ⟨[], false⟩ ⟨0, 80, 0, false⟩).data =
         (⟨[], false⟩ : WorkerSessionState).data.drop 1 ++ [⟨0, 80, 0, false⟩])) :=
  ⟨by decide, C9_buffer_bounded ⟨[], false⟩ ⟨0, 80, 0, false⟩ (by decide)⟩

/-- C6: for every uploaded table with the required columns, every
surviving row comes from an input row whose timestamp parsed (by some
configured format or the fallback) and whose HR lies in [30,200]; the
output is exactly the in-range parseable rows (as a permutation of the
filtered parse results); and the output is sorted ascending by
timestamp. -/
theorem C6_csv_pipeline (fmts : List (String → Option ℚ))
    (fb : String → Option ℚ) (rows : List CsvRow) :
    (∀ r ∈ process_uploaded_csv fmts fb rows,
      (∃ row ∈ rows, parse_timestamp fmts fb row.timestamp = some r.timestamp ∧
        row.hr = r.hr) ∧ 30 ≤ r.hr ∧ r.hr ≤ 200) ∧
    (process_uploaded_csv fmts fb rows).Perm
      ((rows.filterMap (fun row => (parse_timestamp fmts fb row.timestamp).map
          (fun t => ({ timestamp := t, hr := row.hr } : ParsedRow)))).filter
        (fun r => decide (30 ≤ r.hr ∧ r.hr ≤ 200))) ∧
    List.Sorted (fun a b : ParsedRow => a.timestamp ≤ b.timestamp)
      (process_uploaded_csv fmts fb rows) := by
  refine ⟨?_, List.mergeSort_perm _ _, ?_⟩
  · intro r hrmem
    have hval : r ∈ (rows.filterMap
        (fun row => (parse_timestamp fmts fb row.timestamp).map
          (fun t => ({ timestamp := t, hr := row.hr } : ParsedRow)))).filter
        (fun r => decide (30 ≤ r.hr ∧ r.hr ≤ 200)) :=
      (List.mergeSort_perm _ _).mem_iff.mp hrmem
    rw [List.mem_filter] at hval
    obtain ⟨hparsed, hrange⟩ := hval
    rw [decide_eq_true_eq] at hrange
    rw [List.mem_filterMap] at hparsed
    obtain ⟨row, hrow, hmap⟩ := hparsed
    rw [Option.map_eq_some'] at hmap
    obtain ⟨t, hpt, hmk⟩ := hmap
    refine ⟨⟨row, hrow, ?_, ?_⟩, hrange⟩
    · rw [hpt, ← hmk]
    · rw [← hmk]
  · have hpw := @List.sorted_mergeSort ParsedRow
      (fun a b : ParsedRow => decide (a.timestamp ≤ b.timestamp))
      (fun a b c hab hbc => by
        rw [decide_eq_true_eq] at *
        exact le_trans hab hbc)
      (fun a b => by
        rw [Bool.or_eq_true, decide_eq_true_eq, decide_eq_true_eq]
        exact le_total _ _)
      ((rows.filterMap (fun row => (parse_timestamp fmts fb row.timestamp).map
          (fun t => ({ timestamp := t, hr := row.hr } : ParsedRow)))).filter
        (fun r => decide (30 ≤ r.hr ∧ r.hr ≤ 200)))
    exact hpw.imp (fun h => of_decide_eq_true h)
